import Mathlib

/-!
Shallow embedding of `zmq/green/core.py` (`_Socket`, the gevent-green ZMQ
socket adapter).  Native calls (`super().send`, `super().recv`,
`super().getsockopt(EVENTS)`) are modelled by explicit outcome scripts;
gevent `AsyncResult` cells by a tagged state; the resolution a parked
waiter observes by an `Arrival` environment.  Counters record how many
times `__state_changed` fired, how many native event-state queries were
issued, how many native send/recv attempts were made, and how many waits
began.
-/

namespace Green

/-- zmq constant: `zmq.NOBLOCK`. -/
def NOBLOCK : Nat := 1

/-- zmq constant: `zmq.EAGAIN` (POSIX value). -/
def EAGAIN : Nat := 11

/-- zmq constant: `zmq.POLLIN`. -/
def POLLIN : Nat := 1

/-- zmq constant: `zmq.POLLOUT`. -/
def POLLOUT : Nat := 2

/-- zmq constant: `zmq.EVENTS` option number. -/
def EVENTS : Nat := 15

/-- zmq constant: `zmq.FD` option number. -/
def FD : Nat := 14

/-- A ZMQError carries an errno. -/
structure ZMQError where
  errno : Nat
deriving DecidableEq, Repr

/-- The would-block error the native layer raises: a ZMQError whose errno
is EAGAIN. -/
def eagainErr : ZMQError := ⟨EAGAIN⟩

/-- Outcome of one native (`super()`) send/recv attempt. -/
inductive NativeOutcome where
  | success (msg : Nat)
  | failure (e : ZMQError)
deriving DecidableEq, Repr

/-- State of a gevent `AsyncResult` cell: `signaled` after `set()`,
`pending` after a fresh `AsyncResult()`, `errored` after
`set_exception(e)`. -/
inductive CellState where
  | signaled
  | pending
  | errored (e : ZMQError)
deriving DecidableEq, Repr

/-- `AsyncResult.ready()`: true when the cell holds a value or an
exception, false while pending. -/
def CellState.ready : CellState → Bool
  | .pending => false
  | _ => true

/-- Environment for one wait: when (if ever) the parked cell is resolved,
and whether with `set()` (`Except.ok`) or `set_exception` (`Except.error`). -/
inductive Arrival where
  | delivered (t : Nat) (res : Except ZMQError Unit)
  | never
deriving Repr

/-- What `AsyncResult.get` observes given an optional timeout. -/
inductive GetOutcome where
  | value
  | exc (e : ZMQError)
  | timedOut
  | hangs
deriving DecidableEq, Repr

/-- `AsyncResult.get(timeout=T)` semantics: a resolution delivered no
later than the timeout is observed; otherwise the timeout fires; with no
timeout and no resolution the caller suspends forever. -/
def asyncGet : Option Nat → Arrival → GetOutcome
  | some T, .delivered t res =>
      if T < t then .timedOut
      else match res with
        | .ok _ => .value
        | .error e => .exc e
  | none, .delivered _ res =>
      match res with
      | .ok _ => .value
      | .error e => .exc e
  | some _, .never => .timedOut
  | none, .never => .hangs

/-- The observable state of one `_Socket` adapter. -/
structure SocketState where
  in_send_multipart : Bool
  in_recv_multipart : Bool
  writable : CellState
  readable : CellState
  closed : Bool
  /-- number of `__state_changed` invocations so far -/
  stateChangedCount : Nat
  /-- number of native `super().getsockopt(EVENTS)` queries issued -/
  eventsQueryCount : Nat
  /-- number of native send/recv attempts issued -/
  attempts : Nat
  /-- number of waits begun (cell reset to pending) -/
  waits : Nat
deriving DecidableEq, Repr

/-- `_Socket.__init__` + `_Socket.__setup_events`: both multipart flags
false; both cells created and immediately `set()`. -/
def initSocket : SocketState :=
  { in_send_multipart := false
    in_recv_multipart := false
    writable := .signaled
    readable := .signaled
    closed := false
    stateChangedCount := 0
    eventsQueryCount := 0
    attempts := 0
    waits := 0 }

/-- `_Socket.__state_changed`: if closed, `set()` both cells and return
without touching the native socket; otherwise query
`super().getsockopt(EVENTS)` (outcome `q`): on failure deliver the
exception to both cells, on success signal the cells whose readiness bit
is set and leave the others untouched. -/
def state_changed (s : SocketState) (q : Except ZMQError Nat) : SocketState :=
  let s0 := { s with stateChangedCount := s.stateChangedCount + 1 }
  if s0.closed then
    { s0 with writable := .signaled, readable := .signaled }
  else
    let s1 := { s0 with eventsQueryCount := s0.eventsQueryCount + 1 }
    match q with
    | .error e => { s1 with writable := .errored e, readable := .errored e }
    | .ok ev =>
        let s2 := if ev &&& POLLOUT ≠ 0 then { s1 with writable := .signaled } else s1
        if ev &&& POLLIN ≠ 0 then { s2 with readable := .signaled } else s2

/-- One native send/recv attempt is issued (only the counter is
observable in the model; the outcome comes from the script). -/
def attempt (s : SocketState) : SocketState :=
  { s with attempts := s.attempts + 1 }

/-- The guard `if not self.__in_send_multipart: self.__state_changed()`
appearing on the send paths. -/
def fireUnlessSendBatch (s : SocketState) (q : Except ZMQError Nat) : SocketState :=
  if s.in_send_multipart then s else state_changed s q

/-- The guard `if not self.__in_recv_multipart: self.__state_changed()`
appearing on the recv paths. -/
def fireUnlessRecvBatch (s : SocketState) (q : Except ZMQError Nat) : SocketState :=
  if s.in_recv_multipart then s else state_changed s q

/-- Result of a logical call: normal return with frames, a raised
`ZMQError`, a failed `assert`, or a call that never completes (suspended
forever, or trace beyond the modelled horizon). -/
inductive CallResult where
  | ok (msgs : List Nat)
  | err (e : ZMQError)
  | assertFail
  | hang
deriving DecidableEq, Repr

/-- `_Socket._wait_write`: assert the writable cell is ready, reset it to
a fresh pending `AsyncResult`, then `get(timeout=1)`; a `gevent.Timeout`
is caught and the cell re-`set()`. -/
def wait_write (s : SocketState) (a : Arrival) : CallResult × SocketState :=
  if ¬ s.writable.ready then (.assertFail, s)
  else
    let s1 := { s with writable := .pending, waits := s.waits + 1 }
    match asyncGet (some 1) a with
    | .value => (.ok [], { s1 with writable := .signaled })
    | .exc e => (.err e, { s1 with writable := .errored e })
    | .timedOut => (.ok [], { s1 with writable := .signaled })
    | .hangs => (.hang, s1)

/-- `_Socket._wait_read`: assert the readable cell is ready, reset it to
pending, then `get()` with no timeout. -/
def wait_read (s : SocketState) (a : Arrival) : CallResult × SocketState :=
  if ¬ s.readable.ready then (.assertFail, s)
  else
    let s1 := { s with readable := .pending, waits := s.waits + 1 }
    match asyncGet none a with
    | .value => (.ok [], { s1 with readable := .signaled })
    | .exc e => (.err e, { s1 with readable := .errored e })
    | .timedOut => (.ok [], { s1 with readable := .signaled })
    | .hangs => (.hang, s1)

/-- The blocking-path retry loop of `_Socket.send` (`while True:` at line
128): attempt the native call; on success fire `__state_changed` (unless
inside a multipart batch) and return; on a non-EAGAIN error fire (unless
inside a batch) and re-raise; on EAGAIN defer to `_wait_write` and retry.
The script lists the native outcomes, the arrivals resolve the successive
waits; when either runs out the trace is beyond the modelled horizon. -/
def sendLoop (q : Except ZMQError Nat) :
    List NativeOutcome → List Arrival → SocketState → CallResult × SocketState
  | [], _, s => (.hang, s)
  | .success m :: _, _, s => (.ok [m], fireUnlessSendBatch (attempt s) q)
  | .failure e :: _, [], s =>
      if e.errno = EAGAIN then (.hang, attempt s)
      else (.err e, fireUnlessSendBatch (attempt s) q)
  | .failure e :: rest, a :: arest, s =>
      if e.errno = EAGAIN then
        match wait_write (attempt s) a with
        | (.ok _, s1) => sendLoop q rest arest s1
        | r => r
      else (.err e, fireUnlessSendBatch (attempt s) q)

/-- The blocking-path retry loop of `_Socket.recv` (`while True:` at line
160), symmetric to `sendLoop` with `_wait_read` and the recv multipart
flag. -/
def recvLoop (q : Except ZMQError Nat) :
    List NativeOutcome → List Arrival → SocketState → CallResult × SocketState
  | [], _, s => (.hang, s)
  | .success m :: _, _, s => (.ok [m], fireUnlessRecvBatch (attempt s) q)
  | .failure e :: _, [], s =>
      if e.errno = EAGAIN then (.hang, attempt s)
      else (.err e, fireUnlessRecvBatch (attempt s) q)
  | .failure e :: rest, a :: arest, s =>
      if e.errno = EAGAIN then
        match wait_read (attempt s) a with
        | (.ok _, s1) => recvLoop q rest arest s1
        | r => r
      else (.err e, fireUnlessRecvBatch (attempt s) q)

/-- `_Socket.send`: with `zmq.NOBLOCK` in `flags`, one native attempt in a
`try/finally` that fires `__state_changed` (unless inside a multipart
batch) and lets any error — EAGAIN included — propagate; otherwise
`flags |= zmq.NOBLOCK` and enter the retry loop. -/
def send (flags : Nat) (q : Except ZMQError Nat) (script : List NativeOutcome)
    (arrs : List Arrival) (s : SocketState) : CallResult × SocketState :=
  if flags &&& NOBLOCK ≠ 0 then
    match script with
    | [] => (.hang, s)
    | .success m :: _ => (.ok [m], fireUnlessSendBatch (attempt s) q)
    | .failure e :: _ => (.err e, fireUnlessSendBatch (attempt s) q)
  else
    sendLoop q script arrs s

/-- `_Socket.recv`: same dispatch as `send`, on the recv side. -/
def recv (flags : Nat) (q : Except ZMQError Nat) (script : List NativeOutcome)
    (arrs : List Arrival) (s : SocketState) : CallResult × SocketState :=
  if flags &&& NOBLOCK ≠ 0 then
    match script with
    | [] => (.hang, s)
    | .success m :: _ => (.ok [m], fireUnlessRecvBatch (attempt s) q)
    | .failure e :: _ => (.err e, fireUnlessRecvBatch (attempt s) q)
  else
    recvLoop q script arrs s

/-- Per-frame environment of a multipart call: the flags the base class
passes to `self.send`/`self.recv` for that frame, and the native-layer
script for that frame. -/
structure FrameEnv where
  flags : Nat
  q : Except ZMQError Nat
  script : List NativeOutcome
  arrs : List Arrival

/-- `super().send_multipart`: the base class sends each frame through
`self.send` (the green `send` above, dynamic dispatch); the first raised
error aborts the sequence. -/
def sendFrames : List FrameEnv → SocketState → CallResult × SocketState
  | [], s => (.ok [], s)
  | f :: rest, s =>
    match send f.flags f.q f.script f.arrs s with
    | (.ok ms, s1) =>
      match sendFrames rest s1 with
      | (.ok ms2, s2) => (.ok (ms ++ ms2), s2)
      | r => r
    | r => r

/-- `super().recv_multipart`: each frame through the green `recv`. -/
def recvFrames : List FrameEnv → SocketState → CallResult × SocketState
  | [], s => (.ok [], s)
  | f :: rest, s =>
    match recv f.flags f.q f.script f.arrs s with
    | (.ok ms, s1) =>
      match recvFrames rest s1 with
      | (.ok ms2, s2) => (.ok (ms ++ ms2), s2)
      | r => r
    | r => r

/-- `_Socket.send_multipart`: set the in-progress flag, run the underlying
multi-frame call, and in a `finally` clear the flag and fire one
`__state_changed`.  A call that never completes (inner hang) never reaches
the `finally`. -/
def send_multipart (frames : List FrameEnv) (q : Except ZMQError Nat)
    (s : SocketState) : CallResult × SocketState :=
  match sendFrames frames { s with in_send_multipart := true } with
  | (.hang, s1) => (.hang, s1)
  | (r, s1) => (r, state_changed { s1 with in_send_multipart := false } q)

/-- `_Socket.recv_multipart`: symmetric wrapper on the recv side. -/
def recv_multipart (frames : List FrameEnv) (q : Except ZMQError Nat)
    (s : SocketState) : CallResult × SocketState :=
  match recvFrames frames { s with in_recv_multipart := true } with
  | (.hang, s1) => (.hang, s1)
  | (r, s1) => (r, state_changed { s1 with in_recv_multipart := false } q)

/-- `_Socket.getsockopt`: query the underlying option value, then fire
`__state_changed` exactly when the option is `zmq.EVENTS`.  An error from
the underlying query propagates before any re-check. -/
def getsockopt (opt : Nat) (underlying : Except ZMQError Nat)
    (q : Except ZMQError Nat) (s : SocketState) : CallResult × SocketState :=
  match underlying with
  | .error e => (.err e, s)
  | .ok v =>
    let s1 := if opt = EVENTS then state_changed s q else s
    (.ok [v], s1)

/-- An arrival on which `_wait_write` is guaranteed to resume normally: a
`set()` whenever it comes, anything arriving after the 1-unit timeout, or
nothing at all (the timeout self-heal). -/
def Arrival.okForWrite : Arrival → Bool
  | .never => true
  | .delivered _ (.ok _) => true
  | .delivered t (.error _) => decide (1 < t)

/-- An arrival on which `_wait_read` resumes normally: a `set()` delivered
at some time (there is no timeout fallback on the read side). -/
def Arrival.okForRead : Arrival → Bool
  | .delivered _ (.ok _) => true
  | _ => false

theorem state_changed_count (s : SocketState) (q : Except ZMQError Nat) :
    (state_changed s q).stateChangedCount = s.stateChangedCount + 1 := by
  rcases q with e | ev <;> unfold state_changed <;> dsimp only <;>
    split <;> first | rfl | (split <;> split <;> rfl)

theorem state_changed_in_send (s : SocketState) (q : Except ZMQError Nat) :
    (state_changed s q).in_send_multipart = s.in_send_multipart := by
  rcases q with e | ev <;> unfold state_changed <;> dsimp only <;>
    split <;> first | rfl | (split <;> split <;> rfl)

theorem state_changed_in_recv (s : SocketState) (q : Except ZMQError Nat) :
    (state_changed s q).in_recv_multipart = s.in_recv_multipart := by
  rcases q with e | ev <;> unfold state_changed <;> dsimp only <;>
    split <;> first | rfl | (split <;> split <;> rfl)

theorem state_changed_attempts (s : SocketState) (q : Except ZMQError Nat) :
    (state_changed s q).attempts = s.attempts := by
  rcases q with e | ev <;> unfold state_changed <;> dsimp only <;>
    split <;> first | rfl | (split <;> split <;> rfl)

theorem state_changed_waits (s : SocketState) (q : Except ZMQError Nat) :
    (state_changed s q).waits = s.waits := by
  rcases q with e | ev <;> unfold state_changed <;> dsimp only <;>
    split <;> first | rfl | (split <;> split <;> rfl)

theorem wait_write_ok (s : SocketState) (a : Arrival)
    (hr : s.writable.ready = true) (ha : a.okForWrite = true) :
    wait_write s a = (.ok [], { s with writable := .signaled, waits := s.waits + 1 }) := by
  unfold wait_write
  rw [if_neg (by simp [hr])]
  cases a with
  | never => rfl
  | delivered t res =>
    rcases res with e | v
    · have ht : 1 < t := by simpa [Arrival.okForWrite] using ha
      dsimp only [asyncGet]
      rw [if_pos ht]
    · dsimp only [asyncGet]
      by_cases ht : 1 < t
      · rw [if_pos ht]
      · rw [if_neg ht]

theorem wait_read_ok (s : SocketState) (a : Arrival)
    (hr : s.readable.ready = true) (ha : a.okForRead = true) :
    wait_read s a = (.ok [], { s with readable := .signaled, waits := s.waits + 1 }) := by
  unfold wait_read
  rw [if_neg (by simp [hr])]
  cases a with
  | never => simp [Arrival.okForRead] at ha
  | delivered t res =>
    rcases res with e | v
    · simp [Arrival.okForRead] at ha
    · rfl

theorem wait_write_preserves (s : SocketState) (a : Arrival) :
    (wait_write s a).2.stateChangedCount = s.stateChangedCount ∧
    (wait_write s a).2.in_send_multipart = s.in_send_multipart ∧
    (wait_write s a).2.in_recv_multipart = s.in_recv_multipart ∧
    (wait_write s a).2.attempts = s.attempts := by
  unfold wait_write
  split
  · exact ⟨rfl, rfl, rfl, rfl⟩
  · cases a with
    | never => exact ⟨rfl, rfl, rfl, rfl⟩
    | delivered t res =>
      rcases res with e | v <;> dsimp only [asyncGet] <;> split <;> exact ⟨rfl, rfl, rfl, rfl⟩

theorem wait_read_preserves (s : SocketState) (a : Arrival) :
    (wait_read s a).2.stateChangedCount = s.stateChangedCount ∧
    (wait_read s a).2.in_send_multipart = s.in_send_multipart ∧
    (wait_read s a).2.in_recv_multipart = s.in_recv_multipart ∧
    (wait_read s a).2.attempts = s.attempts := by
  unfold wait_read
  split
  · exact ⟨rfl, rfl, rfl, rfl⟩
  · cases a with
    | never => exact ⟨rfl, rfl, rfl, rfl⟩
    | delivered t res =>
      rcases res with e | v <;> exact ⟨rfl, rfl, rfl, rfl⟩

theorem sendLoop_absorbs (q : Except ZMQError Nat) (m : Nat) (n : Nat)
    (arrs : List Arrival) (s : SocketState)
    (hm : s.in_send_multipart = false) (hw : s.writable.ready = true)
    (hok : ∀ a ∈ arrs, a.okForWrite = true) (hlen : n ≤ arrs.length) :
    (sendLoop q (List.replicate n (.failure eagainErr) ++ [.success m]) arrs s).1 = .ok [m] ∧
    (sendLoop q (List.replicate n (.failure eagainErr) ++ [.success m]) arrs s).2.stateChangedCount
      = s.stateChangedCount + 1 := by
  induction n generalizing arrs s with
  | zero =>
    rw [List.replicate_zero, List.nil_append]
    constructor
    · cases arrs <;> simp [sendLoop]
    · cases arrs <;> simp [sendLoop, fireUnlessSendBatch, attempt, hm, state_changed_count]
  | succ n ih =>
    rcases arrs with _ | ⟨a, arest⟩
    · simp at hlen
    · rw [List.replicate_succ, List.cons_append]
      simp only [sendLoop]
      rw [if_pos (show eagainErr.errno = EAGAIN from rfl),
        wait_write_ok (attempt s) a hw (hok a (by simp))]
      exact ih arest
        { attempt s with writable := .signaled, waits := (attempt s).waits + 1 }
        hm rfl (fun x hx => hok x (by simp [hx])) (by simpa using hlen)

theorem recvLoop_absorbs (q : Except ZMQError Nat) (m : Nat) (n : Nat)
    (arrs : List Arrival) (s : SocketState)
    (hm : s.in_recv_multipart = false) (hr : s.readable.ready = true)
    (hok : ∀ a ∈ arrs, a.okForRead = true) (hlen : n ≤ arrs.length) :
    (recvLoop q (List.replicate n (.failure eagainErr) ++ [.success m]) arrs s).1 = .ok [m] ∧
    (recvLoop q (List.replicate n (.failure eagainErr) ++ [.success m]) arrs s).2.stateChangedCount
      = s.stateChangedCount + 1 := by
  induction n generalizing arrs s with
  | zero =>
    rw [List.replicate_zero, List.nil_append]
    constructor
    · cases arrs <;> simp [recvLoop]
    · cases arrs <;> simp [recvLoop, fireUnlessRecvBatch, attempt, hm, state_changed_count]
  | succ n ih =>
    rcases arrs with _ | ⟨a, arest⟩
    · simp at hlen
    · rw [List.replicate_succ, List.cons_append]
      simp only [recvLoop]
      rw [if_pos (show eagainErr.errno = EAGAIN from rfl),
        wait_read_ok (attempt s) a hr (hok a (by simp))]
      exact ih arest
        { attempt s with readable := .signaled, waits := (attempt s).waits + 1 }
        hm rfl (fun x hx => hok x (by simp [hx])) (by simpa using hlen)

theorem sendLoop_in_multipart (q : Except ZMQError Nat) (sc : List NativeOutcome)
    (arrs : List Arrival) (s : SocketState) (hm : s.in_send_multipart = true) :
    (sendLoop q sc arrs s).2.stateChangedCount = s.stateChangedCount ∧
    (sendLoop q sc arrs s).2.in_send_multipart = true := by
  induction sc generalizing arrs s with
  | nil => simp [sendLoop, hm]
  | cons o rest ih =>
    cases o with
    | success m => cases arrs <;> simp [sendLoop, fireUnlessSendBatch, attempt, hm]
    | failure e =>
      by_cases he : e.errno = EAGAIN
      · rcases arrs with _ | ⟨a, arest⟩
        · simp [sendLoop, he, attempt, hm]
        · simp only [sendLoop, if_pos he]
          rcases hww : wait_write (attempt s) a with ⟨r1, s1⟩
          have hp := wait_write_preserves (attempt s) a
          rw [hww] at hp
          have hc : s1.stateChangedCount = s.stateChangedCount := hp.1
          have hf : s1.in_send_multipart = true := hp.2.1.trans hm
          cases r1 with
          | ok ms =>
            obtain ⟨ih1, ih2⟩ := ih arest s1 hf
            exact ⟨ih1.trans hc, ih2⟩
          | err e1 => exact ⟨hc, hf⟩
          | assertFail => exact ⟨hc, hf⟩
          | hang => exact ⟨hc, hf⟩
      · cases arrs <;> simp [sendLoop, he, fireUnlessSendBatch, attempt, hm]

theorem recvLoop_in_multipart (q : Except ZMQError Nat) (sc : List NativeOutcome)
    (arrs : List Arrival) (s : SocketState) (hm : s.in_recv_multipart = true) :
    (recvLoop q sc arrs s).2.stateChangedCount = s.stateChangedCount ∧
    (recvLoop q sc arrs s).2.in_recv_multipart = true := by
  induction sc generalizing arrs s with
  | nil => simp [recvLoop, hm]
  | cons o rest ih =>
    cases o with
    | success m => cases arrs <;> simp [recvLoop, fireUnlessRecvBatch, attempt, hm]
    | failure e =>
      by_cases he : e.errno = EAGAIN
      · rcases arrs with _ | ⟨a, arest⟩
        · simp [recvLoop, he, attempt, hm]
        · simp only [recvLoop, if_pos he]
          rcases hww : wait_read (attempt s) a with ⟨r1, s1⟩
          have hp := wait_read_preserves (attempt s) a
          rw [hww] at hp
          have hc : s1.stateChangedCount = s.stateChangedCount := hp.1
          have hf : s1.in_recv_multipart = true := hp.2.2.1.trans hm
          cases r1 with
          | ok ms =>
            obtain ⟨ih1, ih2⟩ := ih arest s1 hf
            exact ⟨ih1.trans hc, ih2⟩
          | err e1 => exact ⟨hc, hf⟩
          | assertFail => exact ⟨hc, hf⟩
          | hang => exact ⟨hc, hf⟩
      · cases arrs <;> simp [recvLoop, he, fireUnlessRecvBatch, attempt, hm]

end Green

namespace Green

theorem send_in_multipart (flags : Nat) (q : Except ZMQError Nat)
    (sc : List NativeOutcome) (arrs : List Arrival) (s : SocketState)
    (hm : s.in_send_multipart = true) :
    (send flags q sc arrs s).2.stateChangedCount = s.stateChangedCount ∧
    (send flags q sc arrs s).2.in_send_multipart = true := by
  unfold send
  split
  · rcases sc with _ | ⟨o, rest⟩
    · exact ⟨rfl, hm⟩
    · cases o <;> simp [fireUnlessSendBatch, attempt, hm]
  · exact sendLoop_in_multipart q sc arrs s hm

theorem recv_in_multipart (flags : Nat) (q : Except ZMQError Nat)
    (sc : List NativeOutcome) (arrs : List Arrival) (s : SocketState)
    (hm : s.in_recv_multipart = true) :
    (recv flags q sc arrs s).2.stateChangedCount = s.stateChangedCount ∧
    (recv flags q sc arrs s).2.in_recv_multipart = true := by
  unfold recv
  split
  · rcases sc with _ | ⟨o, rest⟩
    · exact ⟨rfl, hm⟩
    · cases o <;> simp [fireUnlessRecvBatch, attempt, hm]
  · exact recvLoop_in_multipart q sc arrs s hm

theorem sendFrames_in_multipart (frames : List FrameEnv) (s : SocketState)
    (hm : s.in_send_multipart = true) :
    (sendFrames frames s).2.stateChangedCount = s.stateChangedCount ∧
    (sendFrames frames s).2.in_send_multipart = true := by
  induction frames generalizing s with
  | nil => exact ⟨rfl, hm⟩
  | cons f rest ih =>
    simp only [sendFrames]
    rcases hs : send f.flags f.q f.script f.arrs s with ⟨r1, s1⟩
    have hp := send_in_multipart f.flags f.q f.script f.arrs s hm
    rw [hs] at hp
    cases r1 with
    | ok ms =>
      obtain ⟨ih1, ih2⟩ := ih s1 hp.2
      dsimp only
      rcases hs2 : sendFrames rest s1 with ⟨r2, s2⟩
      rw [hs2] at ih1 ih2
      cases r2 <;> exact ⟨ih1.trans hp.1, ih2⟩
    | err e1 => exact ⟨hp.1, hp.2⟩
    | assertFail => exact ⟨hp.1, hp.2⟩
    | hang => exact ⟨hp.1, hp.2⟩

theorem recvFrames_in_multipart (frames : List FrameEnv) (s : SocketState)
    (hm : s.in_recv_multipart = true) :
    (recvFrames frames s).2.stateChangedCount = s.stateChangedCount ∧
    (recvFrames frames s).2.in_recv_multipart = true := by
  induction frames generalizing s with
  | nil => exact ⟨rfl, hm⟩
  | cons f rest ih =>
    simp only [recvFrames]
    rcases hs : recv f.flags f.q f.script f.arrs s with ⟨r1, s1⟩
    have hp := recv_in_multipart f.flags f.q f.script f.arrs s hm
    rw [hs] at hp
    cases r1 with
    | ok ms =>
      obtain ⟨ih1, ih2⟩ := ih s1 hp.2
      dsimp only
      rcases hs2 : recvFrames rest s1 with ⟨r2, s2⟩
      rw [hs2] at ih1 ih2
      cases r2 <;> exact ⟨ih1.trans hp.1, ih2⟩
    | err e1 => exact ⟨hp.1, hp.2⟩
    | assertFail => exact ⟨hp.1, hp.2⟩
    | hang => exact ⟨hp.1, hp.2⟩

end Green

namespace Green

theorem wait_write_no_assert (s : SocketState) (a : Arrival)
    (h : s.writable.ready = true) : (wait_write s a).1 ≠ CallResult.assertFail := by
  unfold wait_write
  rw [if_neg (by simp [h])]
  cases a with
  | never => simp [asyncGet]
  | delivered t res =>
    rcases res with e | v <;> dsimp only [asyncGet] <;> split <;> simp

theorem wait_read_no_assert (s : SocketState) (a : Arrival)
    (h : s.readable.ready = true) : (wait_read s a).1 ≠ CallResult.assertFail := by
  unfold wait_read
  rw [if_neg (by simp [h])]
  cases a with
  | never => simp [asyncGet]
  | delivered t res =>
    rcases res with e | v <;> simp [asyncGet]

theorem send_multipart_recheck (frames : List FrameEnv) (q : Except ZMQError Nat)
    (s : SocketState) (h : (send_multipart frames q s).1 ≠ CallResult.hang) :
    (send_multipart frames q s).2.stateChangedCount = s.stateChangedCount + 1 ∧
    (send_multipart frames q s).2.in_send_multipart = false := by
  have hp := sendFrames_in_multipart frames { s with in_send_multipart := true } rfl
  unfold send_multipart at h ⊢
  revert h
  rcases hfr : sendFrames frames { s with in_send_multipart := true } with ⟨r, s1⟩
  intro h
  rw [hfr] at hp
  cases r with
  | ok ms =>
    exact ⟨by rw [state_changed_count]; exact congrArg (fun x => x + 1) hp.1,
      by rw [state_changed_in_send]⟩
  | err e =>
    exact ⟨by rw [state_changed_count]; exact congrArg (fun x => x + 1) hp.1,
      by rw [state_changed_in_send]⟩
  | assertFail =>
    exact ⟨by rw [state_changed_count]; exact congrArg (fun x => x + 1) hp.1,
      by rw [state_changed_in_send]⟩
  | hang => exact absurd rfl h

theorem recv_multipart_recheck (frames : List FrameEnv) (q : Except ZMQError Nat)
    (s : SocketState) (h : (recv_multipart frames q s).1 ≠ CallResult.hang) :
    (recv_multipart frames q s).2.stateChangedCount = s.stateChangedCount + 1 ∧
    (recv_multipart frames q s).2.in_recv_multipart = false := by
  have hp := recvFrames_in_multipart frames { s with in_recv_multipart := true } rfl
  unfold recv_multipart at h ⊢
  revert h
  rcases hfr : recvFrames frames { s with in_recv_multipart := true } with ⟨r, s1⟩
  intro h
  rw [hfr] at hp
  cases r with
  | ok ms =>
    exact ⟨by rw [state_changed_count]; exact congrArg (fun x => x + 1) hp.1,
      by rw [state_changed_in_recv]⟩
  | err e =>
    exact ⟨by rw [state_changed_count]; exact congrArg (fun x => x + 1) hp.1,
      by rw [state_changed_in_recv]⟩
  | assertFail =>
    exact ⟨by rw [state_changed_count]; exact congrArg (fun x => x + 1) hp.1,
      by rw [state_changed_in_recv]⟩
  | hang => exact absurd rfl h

/-- Claim C1: with default (blocking-semantics) flags and outside a
multipart batch, every native EAGAIN outcome is absorbed by the retry
loop: on a script of would-block outcomes followed by a success, both
`send` and `recv` return the success result to the caller and the
readiness re-check (`__state_changed`) fires exactly once for the whole
logical call — zero times per would-block retry, once on the final
success. -/
theorem c1_blocking_absorbs_eagain
    (flagsS flagsR nS nR mS mR : Nat) (qS qR : Except ZMQError Nat)
    (arrsS arrsR : List Arrival) (sS sR : SocketState)
    (hfS : flagsS &&& NOBLOCK = 0) (hfR : flagsR &&& NOBLOCK = 0)
    (hmS : sS.in_send_multipart = false) (hmR : sR.in_recv_multipart = false)
    (hwS : sS.writable.ready = true) (hwR : sR.readable.ready = true)
    (hokS : ∀ a ∈ arrsS, a.okForWrite = true) (hokR : ∀ a ∈ arrsR, a.okForRead = true)
    (hlenS : nS ≤ arrsS.length) (hlenR : nR ≤ arrsR.length) :
    ((send flagsS qS (List.replicate nS (.failure eagainErr) ++ [.success mS]) arrsS sS).1
        = .ok [mS] ∧
     (send flagsS qS (List.replicate nS (.failure eagainErr) ++ [.success mS]) arrsS
        sS).2.stateChangedCount = sS.stateChangedCount + 1) ∧
    ((recv flagsR qR (List.replicate nR (.failure eagainErr) ++ [.success mR]) arrsR sR).1
        = .ok [mR] ∧
     (recv flagsR qR (List.replicate nR (.failure eagainErr) ++ [.success mR]) arrsR
        sR).2.stateChangedCount = sR.stateChangedCount + 1) := by
  constructor
  · have hdef : send flagsS qS
        (List.replicate nS (.failure eagainErr) ++ [.success mS]) arrsS sS
        = sendLoop qS (List.replicate nS (.failure eagainErr) ++ [.success mS]) arrsS sS := by
      unfold send
      rw [if_neg (by simp [hfS])]
    rw [hdef]
    exact sendLoop_absorbs qS mS nS arrsS sS hmS hwS hokS hlenS
  · have hdef : recv flagsR qR
        (List.replicate nR (.failure eagainErr) ++ [.success mR]) arrsR sR
        = recvLoop qR (List.replicate nR (.failure eagainErr) ++ [.success mR]) arrsR sR := by
      unfold recv
      rw [if_neg (by simp [hfR])]
    rw [hdef]
    exact recvLoop_absorbs qR mR nR arrsR sR hmR hwR hokR hlenR

/-- Witness for C1: one would-block then success, on a fresh socket; the
send-side wait resolves by timeout self-heal, the recv-side wait by an
immediate signal. -/
theorem c1_blocking_absorbs_eagain_witness :
    ((send 0 (Except.ok 0) (List.replicate 1 (.failure eagainErr) ++ [.success 7])
        [Arrival.never] initSocket).1 = .ok [7] ∧
     (send 0 (Except.ok 0) (List.replicate 1 (.failure eagainErr) ++ [.success 7])
        [Arrival.never] initSocket).2.stateChangedCount = initSocket.stateChangedCount + 1) ∧
    ((recv 0 (Except.ok 0) (List.replicate 1 (.failure eagainErr) ++ [.success 9])
        [Arrival.delivered 0 (Except.ok ())] initSocket).1 = .ok [9] ∧
     (recv 0 (Except.ok 0) (List.replicate 1 (.failure eagainErr) ++ [.success 9])
        [Arrival.delivered 0 (Except.ok ())] initSocket).2.stateChangedCount
        = initSocket.stateChangedCount + 1) :=
  c1_blocking_absorbs_eagain 0 0 1 1 7 9 (Except.ok 0) (Except.ok 0)
    [Arrival.never] [Arrival.delivered 0 (Except.ok ())] initSocket initSocket
    (by decide) (by decide) rfl rfl rfl rfl (by decide) (by decide) (by decide) (by decide)

/-- Claim C2: a completed `send_multipart`/`recv_multipart` of any number
of frames leaves the in-progress flag false (the `finally` runs on normal
return and exception alike) and fires the readiness re-check exactly once
for the whole batch; and while the in-progress flag is true, inner
`send`/`recv` calls fire no re-check at all. -/
theorem c2_multipart_single_recheck
    (framesS framesR : List FrameEnv) (qS qR : Except ZMQError Nat) (sS sR : SocketState)
    (hS : (send_multipart framesS qS sS).1 ≠ CallResult.hang)
    (hR : (recv_multipart framesR qR sR).1 ≠ CallResult.hang) :
    ((send_multipart framesS qS sS).2.stateChangedCount = sS.stateChangedCount + 1 ∧
     (send_multipart framesS qS sS).2.in_send_multipart = false) ∧
    ((recv_multipart framesR qR sR).2.stateChangedCount = sR.stateChangedCount + 1 ∧
     (recv_multipart framesR qR sR).2.in_recv_multipart = false) ∧
    (∀ (flags : Nat) (q2 : Except ZMQError Nat) (sc : List NativeOutcome)
       (arrs : List Arrival) (s' : SocketState), s'.in_send_multipart = true →
      (send flags q2 sc arrs s').2.stateChangedCount = s'.stateChangedCount) ∧
    (∀ (flags : Nat) (q2 : Except ZMQError Nat) (sc : List NativeOutcome)
       (arrs : List Arrival) (s' : SocketState), s'.in_recv_multipart = true →
      (recv flags q2 sc arrs s').2.stateChangedCount = s'.stateChangedCount) :=
  ⟨send_multipart_recheck framesS qS sS hS,
   recv_multipart_recheck framesR qR sR hR,
   fun flags q2 sc arrs s' h => (send_in_multipart flags q2 sc arrs s' h).1,
   fun flags q2 sc arrs s' h => (recv_in_multipart flags q2 sc arrs s' h).1⟩

/-- Witness for C2: a one-frame batch on a fresh socket, on both sides,
plus the suppression of the inner re-check at a concrete inner state. -/
theorem c2_multipart_single_recheck_witness :
    ((send_multipart [⟨0, Except.ok 0, [.success 1], []⟩] (Except.ok 0)
        initSocket).2.stateChangedCount = initSocket.stateChangedCount + 1 ∧
     (send_multipart [⟨0, Except.ok 0, [.success 1], []⟩] (Except.ok 0)
        initSocket).2.in_send_multipart = false) ∧
    ((recv_multipart [⟨0, Except.ok 0, [.success 2], []⟩] (Except.ok 0)
        initSocket).2.stateChangedCount = initSocket.stateChangedCount + 1 ∧
     (recv_multipart [⟨0, Except.ok 0, [.success 2], []⟩] (Except.ok 0)
        initSocket).2.in_recv_multipart = false) ∧
    (send 0 (Except.ok 0) [.success 3] [] { initSocket with in_send_multipart := true
      }).2.stateChangedCount
      = ({ initSocket with in_send_multipart := true } : SocketState).stateChangedCount ∧
    (recv 0 (Except.ok 0) [.success 3] [] { initSocket with in_recv_multipart := true
      }).2.stateChangedCount
      = ({ initSocket with in_recv_multipart := true } : SocketState).stateChangedCount := by
  have h := c2_multipart_single_recheck [⟨0, Except.ok 0, [.success 1], []⟩]
    [⟨0, Except.ok 0, [.success 2], []⟩] (Except.ok 0) (Except.ok 0)
    initSocket initSocket (by decide) (by decide)
  exact ⟨h.1, h.2.1,
    h.2.2.1 0 (Except.ok 0) [.success 3] [] { initSocket with in_send_multipart := true } rfl,
    h.2.2.2 0 (Except.ok 0) [.success 3] [] { initSocket with in_recv_multipart := true } rfl⟩

/-- Claim C3: with the explicit non-blocking flag set and outside a
multipart batch, `send`/`recv` issue exactly one native attempt, never
suspend, fire exactly one readiness re-check regardless of the attempt's
outcome, and raise any error — a would-block EAGAIN included — to the
caller. -/
theorem c3_noblock_single_attempt
    (flagsS flagsR : Nat) (qS qR : Except ZMQError Nat) (oS oR : NativeOutcome)
    (restS restR : List NativeOutcome) (arrsS arrsR : List Arrival) (sS sR : SocketState)
    (hfS : flagsS &&& NOBLOCK ≠ 0) (hfR : flagsR &&& NOBLOCK ≠ 0)
    (hmS : sS.in_send_multipart = false) (hmR : sR.in_recv_multipart = false) :
    ((send flagsS qS (oS :: restS) arrsS sS).1
        = (match oS with | .success m => CallResult.ok [m] | .failure e => CallResult.err e) ∧
     (send flagsS qS (oS :: restS) arrsS sS).2.stateChangedCount = sS.stateChangedCount + 1 ∧
     (send flagsS qS (oS :: restS) arrsS sS).2.attempts = sS.attempts + 1 ∧
     (send flagsS qS (oS :: restS) arrsS sS).2.waits = sS.waits) ∧
    ((recv flagsR qR (oR :: restR) arrsR sR).1
        = (match oR with | .success m => CallResult.ok [m] | .failure e => CallResult.err e) ∧
     (recv flagsR qR (oR :: restR) arrsR sR).2.stateChangedCount = sR.stateChangedCount + 1 ∧
     (recv flagsR qR (oR :: restR) arrsR sR).2.attempts = sR.attempts + 1 ∧
     (recv flagsR qR (oR :: restR) arrsR sR).2.waits = sR.waits) := by
  constructor
  · unfold send
    rw [if_pos hfS]
    cases oS <;>
      simp [fireUnlessSendBatch, attempt, hmS, state_changed_count,
        state_changed_attempts, state_changed_waits]
  · unfold recv
    rw [if_pos hfR]
    cases oR <;>
      simp [fireUnlessRecvBatch, attempt, hmR, state_changed_count,
        state_changed_attempts, state_changed_waits]

/-- Witness for C3: an explicit-non-blocking send hitting a would-block
error (raised to the caller) and an explicit-non-blocking recv that
succeeds, both on a fresh socket. -/
theorem c3_noblock_single_attempt_witness :
    ((send NOBLOCK (Except.ok 0) (NativeOutcome.failure eagainErr :: []) [] initSocket).1
        = CallResult.err eagainErr ∧
     (send NOBLOCK (Except.ok 0) (NativeOutcome.failure eagainErr :: []) []
        initSocket).2.stateChangedCount = initSocket.stateChangedCount + 1 ∧
     (send NOBLOCK (Except.ok 0) (NativeOutcome.failure eagainErr :: []) []
        initSocket).2.attempts = initSocket.attempts + 1 ∧
     (send NOBLOCK (Except.ok 0) (NativeOutcome.failure eagainErr :: []) []
        initSocket).2.waits = initSocket.waits) ∧
    ((recv NOBLOCK (Except.ok 0) (NativeOutcome.success 4 :: []) [] initSocket).1
        = CallResult.ok [4] ∧
     (recv NOBLOCK (Except.ok 0) (NativeOutcome.success 4 :: []) []
        initSocket).2.stateChangedCount = initSocket.stateChangedCount + 1 ∧
     (recv NOBLOCK (Except.ok 0) (NativeOutcome.success 4 :: []) []
        initSocket).2.attempts = initSocket.attempts + 1 ∧
     (recv NOBLOCK (Except.ok 0) (NativeOutcome.success 4 :: []) []
        initSocket).2.waits = initSocket.waits) :=
  c3_noblock_single_attempt NOBLOCK NOBLOCK (Except.ok 0) (Except.ok 0)
    (NativeOutcome.failure eagainErr) (NativeOutcome.success 4) [] [] [] []
    initSocket initSocket (by decide) (by decide) rfl rfl

end Green

namespace Green

/-- Claim C4: `_wait_write` is bounded by a 1-unit timeout — with no
signal, or a resolution arriving only after the bound, it resumes anyway
and forces the writable cell back to Signaled so the caller's retry
proceeds; `_wait_read` has no timeout — with no resolution it suspends
indefinitely, and a resolution delivered at any time (however late)
settles it with the signal or the error. -/
theorem c4_wait_timeout_bounds (s s' : SocketState) (t t' : Nat)
    (res : Except ZMQError Unit) (e : ZMQError)
    (hw : s.writable.ready = true) (hr : s'.readable.ready = true) (ht : 1 < t) :
    wait_write s Arrival.never
      = (CallResult.ok [], { s with writable := .signaled, waits := s.waits + 1 }) ∧
    wait_write s (Arrival.delivered t res)
      = (CallResult.ok [], { s with writable := .signaled, waits := s.waits + 1 }) ∧
    wait_read s' Arrival.never
      = (CallResult.hang, { s' with readable := .pending, waits := s'.waits + 1 }) ∧
    wait_read s' (Arrival.delivered t' (Except.ok ()))
      = (CallResult.ok [], { s' with readable := .signaled, waits := s'.waits + 1 }) ∧
    wait_read s' (Arrival.delivered t' (Except.error e))
      = (CallResult.err e, { s' with readable := .errored e, waits := s'.waits + 1 }) := by
  refine ⟨wait_write_ok s Arrival.never hw rfl,
    wait_write_ok s (Arrival.delivered t res) hw
      (by rcases res with e1 | v <;> simp [Arrival.okForWrite, ht]),
    ?_, wait_read_ok s' (Arrival.delivered t' (Except.ok ())) hr rfl, ?_⟩
  · unfold wait_read
    rw [if_neg (by simp [hr])]
    simp [asyncGet]
  · unfold wait_read
    rw [if_neg (by simp [hr])]
    simp [asyncGet]

/-- Witness for C4 on a fresh socket: nothing arrives (write side resumes
by timeout, read side hangs), a late write arrival at time 2, and read
resolutions at time 5. -/
theorem c4_wait_timeout_bounds_witness :
    wait_write initSocket Arrival.never
      = (CallResult.ok [],
         { initSocket with writable := .signaled, waits := initSocket.waits + 1 }) ∧
    wait_write initSocket (Arrival.delivered 2 (Except.ok ()))
      = (CallResult.ok [],
         { initSocket with writable := .signaled, waits := initSocket.waits + 1 }) ∧
    wait_read initSocket Arrival.never
      = (CallResult.hang,
         { initSocket with readable := .pending, waits := initSocket.waits + 1 }) ∧
    wait_read initSocket (Arrival.delivered 5 (Except.ok ()))
      = (CallResult.ok [],
         { initSocket with readable := .signaled, waits := initSocket.waits + 1 }) ∧
    wait_read initSocket (Arrival.delivered 5 (Except.error ⟨7⟩))
      = (CallResult.err ⟨7⟩,
         { initSocket with readable := .errored ⟨7⟩, waits := initSocket.waits + 1 }) :=
  c4_wait_timeout_bounds initSocket initSocket 2 5 (Except.ok ()) ⟨7⟩ rfl rfl (by decide)

/-- Claim C5: the readiness callback invoked on an already-closed socket
unconditionally signals both cells and returns without issuing the native
event-state query. -/
theorem c5_closed_callback (s : SocketState) (q : Except ZMQError Nat)
    (hc : s.closed = true) :
    state_changed s q
      = { s with
          writable := .signaled,
          readable := .signaled,
          stateChangedCount := s.stateChangedCount + 1 } ∧
    (state_changed s q).eventsQueryCount = s.eventsQueryCount := by
  have h : state_changed s q
      = { s with
          writable := .signaled,
          readable := .signaled,
          stateChangedCount := s.stateChangedCount + 1 } := by
    unfold state_changed
    dsimp only
    rw [if_pos hc]
  exact ⟨h, by rw [h]⟩

/-- Witness for C5: a closed fresh socket with a pending waiter parked on
each cell; both cells end up signaled and the query counter is untouched. -/
theorem c5_closed_callback_witness :
    state_changed { initSocket with closed := true, writable := .pending, readable := .pending } (Except.ok 0)
      = { initSocket with
          closed := true,
          writable := .signaled,
          readable := .signaled,
          stateChangedCount := initSocket.stateChangedCount + 1 } ∧
    (state_changed { initSocket with closed := true, writable := .pending, readable := .pending } (Except.ok 0)).eventsQueryCount
      = ({ initSocket with closed := true, writable := .pending, readable := .pending } : SocketState).eventsQueryCount :=
  c5_closed_callback
    { initSocket with closed := true, writable := .pending, readable := .pending }
    (Except.ok 0) rfl

/-- Claim C6: when the event-state query inside the readiness callback
fails, the failure is delivered as an error result to both cells, and the
callback still returns a well-defined state (one invocation counted). -/
theorem c6_query_error_to_both_cells (s : SocketState) (e : ZMQError)
    (hc : s.closed = false) :
    (state_changed s (Except.error e)).writable = .errored e ∧
    (state_changed s (Except.error e)).readable = .errored e ∧
    (state_changed s (Except.error e)).stateChangedCount = s.stateChangedCount + 1 := by
  have h : state_changed s (Except.error e)
      = { s with
          writable := .errored e,
          readable := .errored e,
          stateChangedCount := s.stateChangedCount + 1,
          eventsQueryCount := s.eventsQueryCount + 1 } := by
    unfold state_changed
    dsimp only
    rw [if_neg (by simp [hc])]
  rw [h]
  exact ⟨rfl, rfl, rfl⟩

/-- Witness for C6: the query fails with errno 13 on a fresh socket. -/
theorem c6_query_error_to_both_cells_witness :
    (state_changed initSocket (Except.error ⟨13⟩)).writable = .errored ⟨13⟩ ∧
    (state_changed initSocket (Except.error ⟨13⟩)).readable = .errored ⟨13⟩ ∧
    (state_changed initSocket (Except.error ⟨13⟩)).stateChangedCount
      = initSocket.stateChangedCount + 1 :=
  c6_query_error_to_both_cells initSocket ⟨13⟩ rfl

/-- Claim C7: on a non-closed socket with a successful event-state query,
the POLLOUT bit gates the writable cell and the POLLIN bit gates the
readable cell: a set bit signals its cell, a clear bit leaves the cell
exactly as it was (in particular still pending). -/
theorem c7_bits_gate_cells (s : SocketState) (ev : Nat) (hc : s.closed = false) :
    ((ev &&& POLLOUT ≠ 0 → (state_changed s (Except.ok ev)).writable = .signaled) ∧
     (ev &&& POLLOUT = 0 → (state_changed s (Except.ok ev)).writable = s.writable)) ∧
    ((ev &&& POLLIN ≠ 0 → (state_changed s (Except.ok ev)).readable = .signaled) ∧
     (ev &&& POLLIN = 0 → (state_changed s (Except.ok ev)).readable = s.readable)) := by
  unfold state_changed
  dsimp only
  rw [if_neg (by simp [hc])]
  refine ⟨⟨fun hbit => ?_, fun hbit => ?_⟩, ⟨fun hbit => ?_, fun hbit => ?_⟩⟩
  · by_cases hin : ev &&& POLLIN ≠ 0
    · rw [if_pos hin, if_pos hbit]
    · rw [if_neg hin, if_pos hbit]
  · by_cases hin : ev &&& POLLIN ≠ 0
    · rw [if_pos hin, if_neg (show ¬ ev &&& POLLOUT ≠ 0 by simp [hbit])]
    · rw [if_neg hin, if_neg (show ¬ ev &&& POLLOUT ≠ 0 by simp [hbit])]
  · rw [if_pos hbit]
  · rw [if_neg (show ¬ ev &&& POLLIN ≠ 0 by simp [hbit])]
    by_cases hout : ev &&& POLLOUT ≠ 0
    · rw [if_pos hout]
    · rw [if_neg hout]

/-- Witness for C7: bitmask POLLOUT only, with a waiter parked on the
readable cell — the writable cell is signaled, the readable cell stays
pending. -/
theorem c7_bits_gate_cells_witness :
    (state_changed { initSocket with readable := .pending } (Except.ok 2)).writable
      = .signaled ∧
    (state_changed { initSocket with readable := .pending } (Except.ok 2)).readable
      = .pending := by
  have h := c7_bits_gate_cells { initSocket with readable := .pending } 2 rfl
  exact ⟨h.1.1 (by decide), h.2.2 (by decide)⟩

/-- Claim C8: beginning a wait on a cell that is not ready is a fatal
assertion failure in `_wait_write` and `_wait_read` alike, leaving the
state untouched; under the single-waiter contract (the cell is ready when
the wait begins) the assertion never fires. -/
theorem c8_second_wait_fatal (s s' : SocketState) (a a' : Arrival)
    (hw : s.writable.ready = false) (hr : s'.readable.ready = false) :
    (wait_write s a = (CallResult.assertFail, s) ∧
     wait_read s' a' = (CallResult.assertFail, s')) ∧
    (∀ (s2 : SocketState) (a2 : Arrival), s2.writable.ready = true →
      (wait_write s2 a2).1 ≠ CallResult.assertFail) ∧
    (∀ (s2 : SocketState) (a2 : Arrival), s2.readable.ready = true →
      (wait_read s2 a2).1 ≠ CallResult.assertFail) := by
  refine ⟨⟨?_, ?_⟩, fun s2 a2 h2 => wait_write_no_assert s2 a2 h2,
    fun s2 a2 h2 => wait_read_no_assert s2 a2 h2⟩
  · unfold wait_write
    rw [if_pos (by simp [hw])]
  · unfold wait_read
    rw [if_pos (by simp [hr])]

/-- Witness for C8: a second wait while each cell is pending trips the
assertion; on a fresh (signaled) socket neither wait can trip it. -/
theorem c8_second_wait_fatal_witness :
    (wait_write { initSocket with writable := .pending } Arrival.never
      = (CallResult.assertFail, { initSocket with writable := .pending }) ∧
     wait_read { initSocket with readable := .pending } Arrival.never
      = (CallResult.assertFail, { initSocket with readable := .pending })) ∧
    (wait_write initSocket Arrival.never).1 ≠ CallResult.assertFail ∧
    (wait_read initSocket Arrival.never).1 ≠ CallResult.assertFail := by
  have h := c8_second_wait_fatal { initSocket with writable := .pending }
    { initSocket with readable := .pending } Arrival.never Arrival.never rfl rfl
  exact ⟨h.1, h.2.1 initSocket Arrival.never rfl, h.2.2 initSocket Arrival.never rfl⟩

/-- Claim C9: a caller's `getsockopt(EVENTS)` returns the underlying
value and fires exactly one readiness re-check; `getsockopt` of any other
option returns the underlying value with no side effect at all; and the
event-state query made inside the callback adds no callback invocation
beyond the one being counted — one `__state_changed` run increments the
invocation counter by exactly one, never re-entering itself. -/
theorem c9_getsockopt_events_side_effect (opt v : Nat) (q : Except ZMQError Nat)
    (s : SocketState) (hne : opt ≠ EVENTS) :
    ((getsockopt EVENTS (Except.ok v) q s).1 = CallResult.ok [v] ∧
     (getsockopt EVENTS (Except.ok v) q s).2.stateChangedCount = s.stateChangedCount + 1) ∧
    getsockopt opt (Except.ok v) q s = (CallResult.ok [v], s) ∧
    (state_changed s q).stateChangedCount = s.stateChangedCount + 1 := by
  refine ⟨⟨?_, ?_⟩, ?_, state_changed_count s q⟩
  · simp [getsockopt]
  · simp [getsockopt, state_changed_count]
  · simp [getsockopt, hne]

/-- Witness for C9: `getsockopt(EVENTS)` and `getsockopt(FD)` on a fresh
socket. -/
theorem c9_getsockopt_events_side_effect_witness :
    ((getsockopt EVENTS (Except.ok 6) (Except.ok 0) initSocket).1 = CallResult.ok [6] ∧
     (getsockopt EVENTS (Except.ok 6) (Except.ok 0) initSocket).2.stateChangedCount
        = initSocket.stateChangedCount + 1) ∧
    getsockopt FD (Except.ok 6) (Except.ok 0) initSocket = (CallResult.ok [6], initSocket) ∧
    (state_changed initSocket (Except.ok 0)).stateChangedCount
        = initSocket.stateChangedCount + 1 :=
  c9_getsockopt_events_side_effect FD 6 (Except.ok 0) initSocket (by decide)

/-- Claim C10: immediately after construction both cells are Signaled and
both multipart flags are false; hence the very first wait on either
direction cannot trip the single-waiter assertion, and the first
single-part send/recv (default flags) fires its readiness re-check — the
flags do not suppress it. -/
theorem c10_fresh_socket_state :
    initSocket.writable = CellState.signaled ∧
    initSocket.readable = CellState.signaled ∧
    initSocket.in_send_multipart = false ∧
    initSocket.in_recv_multipart = false ∧
    (∀ a : Arrival, (wait_write initSocket a).1 ≠ CallResult.assertFail) ∧
    (∀ a : Arrival, (wait_read initSocket a).1 ≠ CallResult.assertFail) ∧
    (∀ (m : Nat) (q : Except ZMQError Nat) (rest : List NativeOutcome)
       (arrs : List Arrival),
      (send 0 q (.success m :: rest) arrs initSocket).2.stateChangedCount = 1) ∧
    (∀ (m : Nat) (q : Except ZMQError Nat) (rest : List NativeOutcome)
       (arrs : List Arrival),
      (recv 0 q (.success m :: rest) arrs initSocket).2.stateChangedCount = 1) := by
  refine ⟨rfl, rfl, rfl, rfl,
    fun a => wait_write_no_assert initSocket a rfl,
    fun a => wait_read_no_assert initSocket a rfl, ?_, ?_⟩
  · intro m q rest arrs
    cases arrs <;>
      simp [send, NOBLOCK, sendLoop, fireUnlessSendBatch, attempt, initSocket,
        state_changed_count]
  · intro m q rest arrs
    cases arrs <;>
      simp [recv, NOBLOCK, recvLoop, fireUnlessRecvBatch, attempt, initSocket,
        state_changed_count]

end Green
